import Mathlib

/-!
Shallow embedding of the grade-average logic of
`src/grade-calculator/script.js`.  The file contains two implementations
of the same calculator: a plain-JS one (`calculerMoyenne`,
`getStyleMoyenne`, `updateStats`) and a React component
(`calculateAverage`, `getStyleParams`, and the computed values
`totalCoef`, `totalPoints`, `generalAvg`, `validatedCount`,
`dangerCount`).

JavaScript numbers are modelled as `Option ℚ`, with `none` playing the
role of `NaN` (NaN propagates through arithmetic and makes every
comparison false).  Raw field values (form strings, `null`, `undefined`,
numbers) are modelled by `JSVal`, which records exactly the distinctions
the source observes about a value: identity with `null`, `undefined` and
the empty string, whether `isNaN(v)` (i.e. `Number` coercion) yields
NaN, and the result of `parseFloat(v)`.
-/

unseal Rat.ofScientific Rat.mul Rat.inv Rat.add Rat.sub

namespace GradeCalc

/-- A JavaScript value as the calculator's presence tests and parsers see
it.  `num q` is a finite JS number; `nan` the NaN number; `numStr q` a
non-empty string fully parsed by both `Number` and `parseFloat` (e.g.
"12.5"); `headNumStr q` a string with a numeric prefix, parsed by
`parseFloat` but NaN under `Number` (e.g. "12px"); `wsStr` a non-empty
all-whitespace string (`Number` gives 0, `parseFloat` gives NaN);
`otherStr` any other non-empty string (NaN under both). -/
inductive JSVal where
  | null
  | undef
  | num (q : ℚ)
  | nan
  | emptyStr
  | numStr (q : ℚ)
  | headNumStr (q : ℚ)
  | wsStr
  | otherStr
deriving DecidableEq, Repr

/-- JS global `isNaN(v)`: does `Number(v)` yield NaN?
(`isNaN(null) = isNaN('') = isNaN('  ') = false`;
`isNaN(undefined) = isNaN(NaN) = isNaN('12px') = isNaN('abc') = true`.) -/
def jsIsNaN : JSVal → Bool
  | .undef => true
  | .nan => true
  | .headNumStr _ => true
  | .otherStr => true
  | _ => false

/-- JS `parseFloat(v)`; `none` models NaN.  (`parseFloat(null)`,
`parseFloat(undefined)`, `parseFloat('')`, `parseFloat('  ')` are all
NaN; a numeric or numeric-prefixed string parses to its number.) -/
def parseFloat : JSVal → Option ℚ
  | .num q => some q
  | .numStr q => some q
  | .headNumStr q => some q
  | _ => none

/-- NaN-propagating addition of JS numbers. -/
def qadd : Option ℚ → Option ℚ → Option ℚ
  | some a, some b => some (a + b)
  | _, _ => none

/-- NaN-propagating multiplication by a literal weight. -/
def qmul (x : Option ℚ) (c : ℚ) : Option ℚ :=
  x.map (· * c)

/-- NaN-propagating multiplication of two JS numbers. -/
def qmul2 : Option ℚ → Option ℚ → Option ℚ
  | some a, some b => some (a * b)
  | _, _ => none

/-- NaN-propagating division (only applied under a positivity guard in
the source, so the divisor is never 0 where it matters). -/
def qdiv : Option ℚ → Option ℚ → Option ℚ
  | some a, some b => some (a / b)
  | _, _ => none

/-- JS `x >= c` (false when `x` is NaN). -/
def qge (x : Option ℚ) (c : ℚ) : Bool :=
  match x with
  | some a => decide (c ≤ a)
  | none => false

/-- JS `x > c` (false when `x` is NaN). -/
def qgt (x : Option ℚ) (c : ℚ) : Bool :=
  match x with
  | some a => decide (c < a)
  | none => false

/-- JS `x < c` (false when `x` is NaN). -/
def qlt (x : Option ℚ) (c : ℚ) : Bool :=
  match x with
  | some a => decide (a < c)
  | none => false

/-- JS `x || 0` on a number: NaN (and 0, which is falsy) becomes 0. -/
def jsOr0 : Option ℚ → ℚ
  | some q => q
  | none => 0

/-- script.js line 18: `cc !== null && cc !== undefined && !isNaN(cc) && cc !== ''`. -/
def hasNotePlain (v : JSVal) : Bool :=
  v != JSVal.null && v != JSVal.undef && !jsIsNaN v && v != JSVal.emptyStr

/-- script.js line 246: `cc !== '' && cc !== null && !isNaN(cc)`
(`undefined` is caught by `isNaN`). -/
def hasNoteReact (v : JSVal) : Bool :=
  v != JSVal.emptyStr && v != JSVal.null && !jsIsNaN v

/-- The two presence tests agree on every value. -/
theorem hasNote_eq (v : JSVal) : hasNotePlain v = hasNoteReact v := by
  cases v <;> rfl

/-- The integer `n` chosen by `Number.prototype.toFixed(2)` for a
non-negative value `a`: the integer with `n / 100` closest to `a`, ties
resolved to the larger `n`. -/
def fixed2Int (a : ℚ) : ℤ :=
  Rat.floor (a * 100 + 1 / 2)

/-- Render the fractional part `n % 100` on exactly two digits. -/
def twoDigits (n : ℤ) : String :=
  if n < 10 then "0" ++ toString n else toString n

/-- `Number.prototype.toFixed(2)` on a finite rational: minus sign taken
from the argument, then the two-decimal numeral of the rounded absolute
value. -/
def toFixed2 (q : ℚ) : String :=
  let s := if q < 0 then "-" else ""
  let n := fixed2Int |q|
  s ++ toString (n / 100) ++ "." ++ twoDigits (n % 100)

/-- `toFixed(2)` on a JS number: NaN renders as the string "NaN". -/
def jsToFixed2 : Option ℚ → String
  | none => "NaN"
  | some q => toFixed2 q

/-- The rational value `parseFloat` recovers from `toFixed2 q`
(`parseFloat("-0.00")` is `-0`, i.e. `0` in `ℚ`). -/
def round2 (q : ℚ) : ℚ :=
  ((if q < 0 then -fixed2Int |q| else fixed2Int |q| : ℤ) : ℚ) / 100

/-- script.js lines 16–39, `calculerMoyenne`, up to the final
`.toFixed(2)`: the JS number whose formatting the function returns.
`valExam = parseFloat(exam)` has no fallback, so a missing or
non-numeric exam makes the result NaN (`none`). -/
def calculerMoyenneQ (cc tp exam : JSVal) : Option ℚ :=
  let hasCC := hasNotePlain cc
  let hasTP := hasNotePlain tp
  let valCC : Option ℚ := if hasCC then parseFloat cc else some 0
  let valTP : Option ℚ := if hasTP then parseFloat tp else some 0
  let valExam : Option ℚ := parseFloat exam
  if hasCC && hasTP then
    qadd (qadd (qmul valCC 0.3) (qmul valTP 0.2)) (qmul valExam 0.5)
  else if hasCC || hasTP then
    let note1 := if hasCC then valCC else valTP
    qadd (qmul note1 0.4) (qmul valExam 0.6)
  else
    valExam

/-- script.js lines 16–39: `calculerMoyenne` returns the `.toFixed(2)`
string of the computed number. -/
def calculerMoyenne (cc tp exam : JSVal) : String :=
  jsToFixed2 (calculerMoyenneQ cc tp exam)

/-- script.js lines 245–260, the React `calculateAverage`: same
branches, but `valExam = parseFloat(exam) || 0`, and the number is
returned unformatted. -/
def calculateAverage (cc tp exam : JSVal) : Option ℚ :=
  let hasCC := hasNoteReact cc
  let hasTP := hasNoteReact tp
  let valCC : Option ℚ := if hasCC then parseFloat cc else some 0
  let valTP : Option ℚ := if hasTP then parseFloat tp else some 0
  let valExam : Option ℚ := some (jsOr0 (parseFloat exam))
  if hasCC && hasTP then
    qadd (qadd (qmul valCC 0.3) (qmul valTP 0.2)) (qmul valExam 0.5)
  else if hasCC || hasTP then
    let note1 := if hasCC then valCC else valTP
    qadd (qmul note1 0.4) (qmul valExam 0.6)
  else
    valExam

/-- script.js lines 41–47: `getStyleMoyenne` CSS class (the argument is
`parseFloat`ed first in the source; it is already a JS number here). -/
def getStyleMoyenneClass (moy : Option ℚ) : String :=
  if qge moy 16 then "grade-excellent"
  else if qge moy 10 then "grade-good"
  else if qge moy 8 then "grade-warning"
  else "grade-danger"

/-- The four status labels returned by the React `getStyleParams`
(Excellent / Validé / Rattrapage / Échec). -/
inductive Label where
  | excellent
  | valide
  | rattrapage
  | echec
deriving DecidableEq, Repr

/-- script.js lines 266–295: the React `getStyleParams` label as a
function of the average. -/
def getStyleParams (avg : Option ℚ) : Label :=
  if qge avg 16 then Label.excellent
  else if qge avg 10 then Label.valide
  else if qge avg 8 then Label.rattrapage
  else Label.echec

/-- A stored grade entry, with the raw field values the form/storage
hands to the computation (script.js lines 133–139 and the React
`formData`). -/
structure Grade where
  subject : String
  coef : JSVal
  cc : JSVal
  tp : JSVal
  exam : JSVal
deriving DecidableEq, Repr

/-- The React per-entry average, `calculateAverage(g.cc, g.tp, g.exam)`. -/
def avgReact (g : Grade) : Option ℚ :=
  calculateAverage g.cc g.tp g.exam

/-- script.js line 98: `parseFloat(calculerMoyenne({cc, tp, exam}))`.
`calculerMoyenne` returns either "NaN" or a signed two-decimal numeral,
so parsing it back yields NaN or the two-decimal rounding of the exact
average. -/
def avgPlainRounded (g : Grade) : Option ℚ :=
  (calculerMoyenneQ g.cc g.tp g.exam).map round2

/-- script.js line 301: `grades.reduce((acc, curr) => acc + parseFloat(curr.coef), 0)`. -/
def totalCoef (gs : List Grade) : Option ℚ :=
  gs.foldl (fun acc g => qadd acc (parseFloat g.coef)) (some 0)

/-- script.js lines 303–306: `grades.reduce((acc, curr) => acc +
calculateAverage(...) * parseFloat(curr.coef), 0)`. -/
def totalPoints (gs : List Grade) : Option ℚ :=
  gs.foldl (fun acc g => qadd acc (qmul2 (avgReact g) (parseFloat g.coef))) (some 0)

/-- script.js line 308, before display formatting: the number whose
`.toFixed(2)` the React `generalAvg` shows, i.e.
`totalCoef > 0 ? totalPoints / totalCoef : 0`. -/
def generalAvgQ (gs : List Grade) : Option ℚ :=
  if qgt (totalCoef gs) 0 then qdiv (totalPoints gs) (totalCoef gs) else some 0

/-- script.js line 308: `totalCoef > 0 ? (totalPoints/totalCoef).toFixed(2) : '0.00'`. -/
def generalAvg (gs : List Grade) : String :=
  jsToFixed2 (generalAvgQ gs)

/-- script.js line 309: `grades.filter(g => calculateAverage(...) >= 10).length`. -/
def validatedCount (gs : List Grade) : ℕ :=
  (gs.filter fun g => qge (avgReact g) 10).length

/-- script.js line 310: `grades.filter(g => calculateAverage(...) < 8).length`. -/
def dangerCount (gs : List Grade) : ℕ :=
  (gs.filter fun g => qlt (avgReact g) 8).length

/-- The three stats `updateStats` writes to the page. -/
structure Stats where
  generalAvg : String
  validated : ℕ
  danger : ℕ
deriving DecidableEq, Repr

/-- script.js lines 92–101: the `totalPoints` accumulator of the
`updateStats` loop (`totalPoints += avg * coef` with
`avg = parseFloat(calculerMoyenne(...))`, `coef = parseFloat(grade.coef)`).
The loop's four accumulators are independent, so each is embedded as its
own fold over the same list. -/
def totalPointsPlain (gs : List Grade) : Option ℚ :=
  gs.foldl (fun acc g => qadd acc (qmul2 (avgPlainRounded g) (parseFloat g.coef))) (some 0)

/-- script.js lines 93–102: the `totalCoef` accumulator of `updateStats`. -/
def totalCoefPlain (gs : List Grade) : Option ℚ :=
  gs.foldl (fun acc g => qadd acc (parseFloat g.coef)) (some 0)

/-- script.js lines 94–104: the `validated` counter of `updateStats`
(`if (avg >= 10) validated++`, on the rounded-and-reparsed average). -/
def validatedPlain (gs : List Grade) : ℕ :=
  gs.foldl (fun acc g => acc + if qge (avgPlainRounded g) 10 then 1 else 0) 0

/-- script.js lines 95–105: the `danger` counter of `updateStats`
(`if (avg < 8) danger++`). -/
def dangerPlain (gs : List Grade) : ℕ :=
  gs.foldl (fun acc g => acc + if qlt (avgPlainRounded g) 8 then 1 else 0) 0

/-- script.js lines 84–117: `updateStats`.  For an empty collection it
writes dashes to all three fields and returns early (`none` here);
otherwise it displays `totalCoef > 0 ? (totalPoints/totalCoef).toFixed(2)
: '0.00'` plus the two counters. -/
def updateStats (gs : List Grade) : Option Stats :=
  if gs = [] then none
  else
    some { generalAvg :=
             if qgt (totalCoefPlain gs) 0 then
               jsToFixed2 (qdiv (totalPointsPlain gs) (totalCoefPlain gs))
             else "0.00",
           validated := validatedPlain gs,
           danger := dangerPlain gs }

/-- The presentation layer's invocation of `updateStats` on the `grades`
collection: the computation reads the collection and mutates nothing
(`updateStats` in the source only reads `grades`), so the call returns
its result alongside the untouched collection. -/
def updateStatsCall (gs : List Grade) : Option Stats × List Grade :=
  (updateStats gs, gs)

theorem qadd_none_right (x : Option ℚ) : qadd x none = none := by
  cases x <;> rfl

theorem qadd_some_some (a b : ℚ) : qadd (some a) (some b) = some (a + b) := rfl

theorem foldl_qadd_some (f : Grade → Option ℚ) :
    ∀ (gs : List Grade) (x : ℚ), (∀ g ∈ gs, (f g).isSome = true) →
      gs.foldl (fun acc g => qadd acc (f g)) (some x) =
        some (x + (gs.map fun g => (f g).getD 0).sum) := by
  intro gs
  induction gs with
  | nil => intro x _; simp
  | cons g gs ih =>
    intro x h
    obtain ⟨c, hc⟩ := Option.isSome_iff_exists.mp (h g (by simp))
    simp only [List.foldl_cons, List.map_cons, List.sum_cons, hc, qadd_some_some]
    rw [ih (x + c) (fun g' hg' => h g' (by simp [hg']))]
    simp [add_assoc]

theorem foldl_count (p : Grade → Bool) :
    ∀ (gs : List Grade) (n : ℕ),
      gs.foldl (fun acc g => acc + if p g then 1 else 0) n = n + (gs.filter p).length := by
  intro gs
  induction gs with
  | nil => intro n; simp
  | cons g gs ih =>
    intro n
    cases hp : p g
    · simp [List.filter_cons, hp, ih]
    · simp [List.filter_cons, hp, ih]
      omega

theorem getStyleParams_eq_ite (q : ℚ) :
    getStyleParams (some q) =
      (if 16 ≤ q then Label.excellent else if 10 ≤ q then Label.valide
       else if 8 ≤ q then Label.rattrapage else Label.echec) := by
  simp [getStyleParams, qge]

theorem getStyleMoyenneClass_eq_ite (q : ℚ) :
    getStyleMoyenneClass (some q) =
      (if 16 ≤ q then "grade-excellent" else if 10 ≤ q then "grade-good"
       else if 8 ≤ q then "grade-warning" else "grade-danger") := by
  simp [getStyleMoyenneClass, qge]

/-- C1, counterexample.  The claim says both implementations return
exactly `0.3*CC + 0.2*TP + 0.5*Exam` with no rounding inside.  At
`cc = 0.01, tp = 0, exam = 0` the exact weighted sum is `0.003`, the
React `calculateAverage` does return it, but the plain-JS
`calculerMoyenne` returns the already-rounded string "0.00" (which
parses back to `0 ≠ 0.003`): rounding happens inside `calculerMoyenne`. -/
theorem C1_counterexample :
    calculerMoyenne (JSVal.num 0.01) (JSVal.num 0) (JSVal.num 0) = "0.00" ∧
    calculateAverage (JSVal.num 0.01) (JSVal.num 0) (JSVal.num 0) = some 0.003 ∧
    round2 0.003 = 0 ∧ (0.003 : ℚ) ≠ 0 := by
  refine ⟨by decide, by decide, by decide, by decide⟩

/-- C1, amended.  When CC and TP are both present and numeric and the
exam parses, `calculateAverage` returns exactly
`cc*0.3 + tp*0.2 + exam*0.5` with no rounding, while `calculerMoyenne`
returns that same value rounded and formatted to two decimals (the
rounding happens inside `calculerMoyenne`, not at display time). -/
theorem C1_amended (cc tp exam : JSVal) (a b e : ℚ)
    (hcc : hasNoteReact cc = true) (htp : hasNoteReact tp = true)
    (ha : parseFloat cc = some a) (hb : parseFloat tp = some b)
    (he : parseFloat exam = some e) :
    calculateAverage cc tp exam = some (a * 0.3 + b * 0.2 + e * 0.5) ∧
    calculerMoyenne cc tp exam = toFixed2 (a * 0.3 + b * 0.2 + e * 0.5) := by
  have hccp : hasNotePlain cc = true := by rw [hasNote_eq]; exact hcc
  have htpp : hasNotePlain tp = true := by rw [hasNote_eq]; exact htp
  constructor
  · simp [calculateAverage, hcc, htp, ha, hb, he, qadd, qmul, jsOr0]
  · simp [calculerMoyenne, calculerMoyenneQ, jsToFixed2, hccp, htpp, ha, hb, he, qadd, qmul]

/-- C1, witness: `C1_amended` at `cc = 12, tp = 14, exam = 10`. -/
theorem C1_witness :
    hasNoteReact (JSVal.num 12) = true ∧
    parseFloat (JSVal.num 10) = some 10 ∧
    calculateAverage (JSVal.num 12) (JSVal.num 14) (JSVal.num 10) =
      some (12 * 0.3 + 14 * 0.2 + 10 * 0.5) ∧
    calculerMoyenne (JSVal.num 12) (JSVal.num 14) (JSVal.num 10) =
      toFixed2 (12 * 0.3 + 14 * 0.2 + 10 * 0.5) :=
  ⟨rfl, rfl,
   (C1_amended (JSVal.num 12) (JSVal.num 14) (JSVal.num 10) 12 14 10 rfl rfl rfl rfl rfl).1,
   (C1_amended (JSVal.num 12) (JSVal.num 14) (JSVal.num 10) 12 14 10 rfl rfl rfl rfl rfl).2⟩

/-- C2, counterexample.  With a missing exam (`''`), the plain-JS
`calculerMoyenne` does not treat the exam as 0: it returns the string
"NaN" (the claimed behaviour, realised only by the React
`calculateAverage`, would give `0.3*10 + 0.2*10 + 0.5*0 = 5`).  Also, a
whitespace-only CC passes the `isNaN` presence test but `parseFloat`s to
NaN, so even `calculateAverage` returns NaN for it rather than a safe
numeric default. -/
theorem C2_counterexample :
    calculerMoyenne (JSVal.num 10) (JSVal.num 10) JSVal.emptyStr = "NaN" ∧
    calculateAverage (JSVal.num 10) (JSVal.num 10) JSVal.emptyStr = some 5 ∧
    calculateAverage JSVal.wsStr (JSVal.num 10) (JSVal.num 10) = none := by
  refine ⟨by decide, by decide, by decide⟩

/-- C2, amended.  When the exam is missing or non-numeric
(`parseFloat` gives NaN), the React `calculateAverage` treats the exam
as 0 (it behaves exactly as on exam = 0), while the plain-JS
`calculerMoyenne` propagates NaN and returns the string "NaN".  Neither
implementation raises an error (both are total functions). -/
theorem C2_amended (cc tp exam : JSVal) (h : parseFloat exam = none) :
    calculateAverage cc tp exam = calculateAverage cc tp (JSVal.num 0) ∧
    calculerMoyenne cc tp exam = "NaN" := by
  constructor
  · have h0 : parseFloat (JSVal.num 0) = some 0 := rfl
    simp [calculateAverage, h, h0, jsOr0]
  · simp only [calculerMoyenne, calculerMoyenneQ, h]
    split_ifs <;> simp [qadd_none_right, qmul, jsToFixed2]

/-- C2, witness: `C2_amended` at `cc = 10, tp = 10, exam = ''`. -/
theorem C2_witness :
    parseFloat JSVal.emptyStr = none ∧
    (calculateAverage (JSVal.num 10) (JSVal.num 10) JSVal.emptyStr =
       calculateAverage (JSVal.num 10) (JSVal.num 10) (JSVal.num 0) ∧
     calculerMoyenne (JSVal.num 10) (JSVal.num 10) JSVal.emptyStr = "NaN") :=
  ⟨rfl, C2_amended (JSVal.num 10) (JSVal.num 10) JSVal.emptyStr rfl⟩

/-- C3, counterexample.  The aggregate does not restrict itself to
entries with non-negative coefficients: adding an entry with coefficient
`-1` changes the general average from 10 (the value over the
non-negative entries alone, as the claim states it) to 0.  Moreover a
collection with coefficient sum 0 does not have `validatedCount = 0`:
one entry with `coef = 0` and average 16 is still counted. -/
theorem C3_counterexample :
    parseFloat (JSVal.num (-1)) = some (-1) ∧
    generalAvgQ [⟨"A", JSVal.num 2, JSVal.undef, JSVal.undef, JSVal.num 10⟩] = some 10 ∧
    generalAvgQ [⟨"A", JSVal.num 2, JSVal.undef, JSVal.undef, JSVal.num 10⟩,
                 ⟨"B", JSVal.num (-1), JSVal.undef, JSVal.undef, JSVal.num 20⟩] = some 0 ∧
    (0 : ℚ) ≠ 10 ∧
    totalCoef [⟨"C", JSVal.num 0, JSVal.undef, JSVal.undef, JSVal.num 16⟩] = some 0 ∧
    validatedCount [⟨"C", JSVal.num 0, JSVal.undef, JSVal.undef, JSVal.num 16⟩] = 1 := by
  refine ⟨by decide, by decide, by decide, by decide, by decide, by decide⟩

/-- C3, amended.  The general average is the coefficient-weighted mean
over ALL entries (no filtering by coefficient sign or numericness): when
every coefficient and every subject average parses,
`totalCoef = Σ coef_i`, `totalPoints = Σ avg_i * coef_i`, and
`generalAverage` is their quotient when `Σ coef_i > 0` and 0 otherwise.
For the empty collection the React component reports average 0 and both
counts 0, while the plain-JS `updateStats` just displays dashes. -/
theorem C3_amended (gs : List Grade)
    (hc : ∀ g ∈ gs, (parseFloat g.coef).isSome = true)
    (ha : ∀ g ∈ gs, (avgReact g).isSome = true) :
    totalCoef gs = some ((gs.map fun g => (parseFloat g.coef).getD 0).sum) ∧
    totalPoints gs =
      some ((gs.map fun g => (avgReact g).getD 0 * (parseFloat g.coef).getD 0).sum) ∧
    (0 < (gs.map fun g => (parseFloat g.coef).getD 0).sum →
      generalAvgQ gs =
        some ((gs.map fun g => (avgReact g).getD 0 * (parseFloat g.coef).getD 0).sum /
              (gs.map fun g => (parseFloat g.coef).getD 0).sum)) ∧
    (¬ 0 < (gs.map fun g => (parseFloat g.coef).getD 0).sum →
      generalAvgQ gs = some 0) ∧
    generalAvgQ ([] : List Grade) = some 0 ∧
    generalAvg ([] : List Grade) = "0.00" ∧
    validatedCount ([] : List Grade) = 0 ∧
    dangerCount ([] : List Grade) = 0 ∧
    updateStats ([] : List Grade) = none := by
  have hcoef : totalCoef gs = some ((gs.map fun g => (parseFloat g.coef).getD 0).sum) := by
    rw [totalCoef, foldl_qadd_some _ gs 0 hc, zero_add]
  have hpts : totalPoints gs =
      some ((gs.map fun g => (avgReact g).getD 0 * (parseFloat g.coef).getD 0).sum) := by
    have hs : ∀ g ∈ gs, (qmul2 (avgReact g) (parseFloat g.coef)).isSome = true := by
      intro g hg
      obtain ⟨x, hx⟩ := Option.isSome_iff_exists.mp (ha g hg)
      obtain ⟨c, hcx⟩ := Option.isSome_iff_exists.mp (hc g hg)
      simp [qmul2, hx, hcx]
    rw [totalPoints, foldl_qadd_some _ gs 0 hs, zero_add]
    congr 1
    refine congrArg List.sum (List.map_congr_left ?_)
    intro g hg
    obtain ⟨x, hx⟩ := Option.isSome_iff_exists.mp (ha g hg)
    obtain ⟨c, hcx⟩ := Option.isSome_iff_exists.mp (hc g hg)
    simp [qmul2, hx, hcx]
  refine ⟨hcoef, hpts, ?_, ?_, by decide, by decide, by decide, by decide, by decide⟩
  · intro hpos
    rw [generalAvgQ, hcoef, hpts]
    have : qgt (some ((gs.map fun g => (parseFloat g.coef).getD 0).sum)) 0 = true := by
      simpa [qgt] using hpos
    rw [if_pos this]
    rfl
  · intro hneg
    rw [generalAvgQ, hcoef]
    have : qgt (some ((gs.map fun g => (parseFloat g.coef).getD 0).sum)) 0 = false := by
      simpa [qgt] using hneg
    rw [if_neg (by simp [this])]

/-- C3, witness: `C3_amended` on the one-entry collection with
coefficient 2 and exam 10. -/
theorem C3_witness :
    (∀ g ∈ [(⟨"A", JSVal.num 2, JSVal.undef, JSVal.undef, JSVal.num 10⟩ : Grade)],
       (parseFloat g.coef).isSome = true) ∧
    totalCoef [(⟨"A", JSVal.num 2, JSVal.undef, JSVal.undef, JSVal.num 10⟩ : Grade)] =
      some (([(⟨"A", JSVal.num 2, JSVal.undef, JSVal.undef, JSVal.num 10⟩ : Grade)].map
              fun g => (parseFloat g.coef).getD 0).sum) :=
  ⟨by decide, (C3_amended _ (by decide) (by decide)).1⟩

/-- C4, counterexample.  An entry whose exact subject average is
`9.996 < 10` must not be validated according to the claim, and the React
`validatedCount` indeed gives 0; but the plain-JS `updateStats` parses
the two-decimal string "10.00" back and counts the entry as validated. -/
theorem C4_counterexample :
    updateStats [⟨"R", JSVal.num 1, JSVal.undef, JSVal.undef, JSVal.num (2499/250)⟩] =
      some ⟨"10.00", 1, 0⟩ ∧
    avgReact ⟨"R", JSVal.num 1, JSVal.undef, JSVal.undef, JSVal.num (2499/250)⟩ =
      some (2499/250) ∧
    validatedCount [⟨"R", JSVal.num 1, JSVal.undef, JSVal.undef, JSVal.num (2499/250)⟩] = 0 ∧
    ¬ (10 : ℚ) ≤ 2499/250 := by
  refine ⟨by decide, by decide, by decide, by decide⟩

/-- C4, amended.  The React counts use the exact averages
(`validatedCount` counts entries with average ≥ 10, `dangerCount` those
with average < 8), the plain-JS `updateStats` applies the same
thresholds to the two-decimal-rounded averages, and an entry whose
(React) average lies in `[8, 10)` is counted by neither. -/
theorem C4_amended (gs : List Grade) (g : Grade) (q : ℚ)
    (hne : gs ≠ []) (hg : avgReact g = some q) (h8 : 8 ≤ q) (h10 : q < 10) :
    validatedCount gs = (gs.filter fun x => qge (avgReact x) 10).length ∧
    dangerCount gs = (gs.filter fun x => qlt (avgReact x) 8).length ∧
    (∃ s, updateStats gs = some s ∧
       s.validated = (gs.filter fun x => qge (avgPlainRounded x) 10).length ∧
       s.danger = (gs.filter fun x => qlt (avgPlainRounded x) 8).length) ∧
    validatedCount [g] = 0 ∧ dangerCount [g] = 0 := by
  have hv : validatedPlain gs = (gs.filter fun x => qge (avgPlainRounded x) 10).length := by
    rw [validatedPlain, foldl_count, Nat.zero_add]
  have hd : dangerPlain gs = (gs.filter fun x => qlt (avgPlainRounded x) 8).length := by
    rw [dangerPlain, foldl_count, Nat.zero_add]
  refine ⟨rfl, rfl, ?_, ?_, ?_⟩
  · refine ⟨⟨if qgt (totalCoefPlain gs) 0 then
               jsToFixed2 (qdiv (totalPointsPlain gs) (totalCoefPlain gs))
             else "0.00", validatedPlain gs, dangerPlain gs⟩, ?_, hv, hd⟩
    rw [updateStats, if_neg hne]
  · have hq : qge (avgReact g) 10 = false := by
      rw [hg]
      simp only [qge, decide_eq_false_iff_not]
      exact fun hcon => absurd h10 (not_lt.mpr hcon)
    simp [validatedCount, List.filter_cons, hq]
  · have hq : qlt (avgReact g) 8 = false := by
      rw [hg]
      simp only [qlt, decide_eq_false_iff_not]
      exact fun hcon => absurd h8 (not_le.mpr hcon)
    simp [dangerCount, List.filter_cons, hq]

/-- C4, witness: `C4_amended` on the one-entry collection whose average
9 lies in the silent band `[8, 10)`. -/
theorem C4_witness :
    ([(⟨"B", JSVal.num 1, JSVal.undef, JSVal.undef, JSVal.num 9⟩ : Grade)] ≠ []) ∧
    validatedCount [(⟨"B", JSVal.num 1, JSVal.undef, JSVal.undef, JSVal.num 9⟩ : Grade)] = 0 ∧
    dangerCount [(⟨"B", JSVal.num 1, JSVal.undef, JSVal.undef, JSVal.num 9⟩ : Grade)] = 0 :=
  ⟨by decide,
   (C4_amended [⟨"B", JSVal.num 1, JSVal.undef, JSVal.undef, JSVal.num 9⟩]
     ⟨"B", JSVal.num 1, JSVal.undef, JSVal.undef, JSVal.num 9⟩ 9
     (by decide) (by decide) (by decide) (by decide)).2.2.2.1,
   (C4_amended [⟨"B", JSVal.num 1, JSVal.undef, JSVal.undef, JSVal.num 9⟩]
     ⟨"B", JSVal.num 1, JSVal.undef, JSVal.undef, JSVal.num 9⟩ 9
     (by decide) (by decide) (by decide) (by decide)).2.2.2.2⟩

/-- C5, counterexample.  On the spec's concrete scenario the first
subject's average is `0.3*12 + 0.2*14 + 0.5*10 = 11.4`, not 10.4, and
the general average is `(11.4*2 + 16 + 4.8)/4 = 10.9`, not 10.4 (the
claim's arithmetic is wrong). -/
theorem C5_counterexample :
    calculateAverage (JSVal.num 12) (JSVal.num 14) (JSVal.num 10) = some 11.4 ∧
    (11.4 : ℚ) ≠ 10.4 ∧
    generalAvgQ [⟨"A", JSVal.num 2, JSVal.num 12, JSVal.num 14, JSVal.num 10⟩,
                 ⟨"B", JSVal.num 1, JSVal.undef, JSVal.undef, JSVal.num 16⟩,
                 ⟨"C", JSVal.num 1, JSVal.undef, JSVal.num 6, JSVal.num 4⟩] = some 10.9 ∧
    (10.9 : ℚ) ≠ 10.4 := by
  refine ⟨by decide, by decide, by decide, by decide⟩

/-- C5, amended.  For the scenario `[{cc:12, tp:14, exam:10, coef:2},
{exam:16, coef:1}, {tp:6, exam:4, coef:1}]` the subject averages are
11.4, 16 and 4.8, the general average is `43.6/4 = 10.9` (displayed
"10.90"), `validatedCount = 2` and `dangerCount = 1` — in both
implementations. -/
theorem C5_amended :
    calculateAverage (JSVal.num 12) (JSVal.num 14) (JSVal.num 10) = some 11.4 ∧
    calculateAverage JSVal.undef JSVal.undef (JSVal.num 16) = some 16 ∧
    calculateAverage JSVal.undef (JSVal.num 6) (JSVal.num 4) = some 4.8 ∧
    calculerMoyenne (JSVal.num 12) (JSVal.num 14) (JSVal.num 10) = "11.40" ∧
    calculerMoyenne JSVal.undef JSVal.undef (JSVal.num 16) = "16.00" ∧
    calculerMoyenne JSVal.undef (JSVal.num 6) (JSVal.num 4) = "4.80" ∧
    generalAvgQ [⟨"A", JSVal.num 2, JSVal.num 12, JSVal.num 14, JSVal.num 10⟩,
                 ⟨"B", JSVal.num 1, JSVal.undef, JSVal.undef, JSVal.num 16⟩,
                 ⟨"C", JSVal.num 1, JSVal.undef, JSVal.num 6, JSVal.num 4⟩] = some 10.9 ∧
    generalAvg [⟨"A", JSVal.num 2, JSVal.num 12, JSVal.num 14, JSVal.num 10⟩,
                ⟨"B", JSVal.num 1, JSVal.undef, JSVal.undef, JSVal.num 16⟩,
                ⟨"C", JSVal.num 1, JSVal.undef, JSVal.num 6, JSVal.num 4⟩] = "10.90" ∧
    validatedCount [⟨"A", JSVal.num 2, JSVal.num 12, JSVal.num 14, JSVal.num 10⟩,
                    ⟨"B", JSVal.num 1, JSVal.undef, JSVal.undef, JSVal.num 16⟩,
                    ⟨"C", JSVal.num 1, JSVal.undef, JSVal.num 6, JSVal.num 4⟩] = 2 ∧
    dangerCount [⟨"A", JSVal.num 2, JSVal.num 12, JSVal.num 14, JSVal.num 10⟩,
                 ⟨"B", JSVal.num 1, JSVal.undef, JSVal.undef, JSVal.num 16⟩,
                 ⟨"C", JSVal.num 1, JSVal.undef, JSVal.num 6, JSVal.num 4⟩] = 1 ∧
    updateStats [⟨"A", JSVal.num 2, JSVal.num 12, JSVal.num 14, JSVal.num 10⟩,
                 ⟨"B", JSVal.num 1, JSVal.undef, JSVal.undef, JSVal.num 16⟩,
                 ⟨"C", JSVal.num 1, JSVal.undef, JSVal.num 6, JSVal.num 4⟩] =
      some ⟨"10.90", 2, 1⟩ := by
  refine ⟨by decide, by decide, by decide, by decide, by decide, by decide, by decide,
    by decide, by decide, by decide, by decide⟩

/-- C6, counterexample.  With only CC = 0.01 present and exam = 0, the
exact single-score formula gives `0.4*0.01 + 0.6*0 = 0.004`, which the
React `calculateAverage` returns, but the plain-JS `calculerMoyenne`
returns the rounded string "0.00" (parsing back to `0 ≠ 0.004`), so the
claimed equality fails for it. -/
theorem C6_counterexample :
    calculerMoyenne (JSVal.num 0.01) JSVal.undef (JSVal.num 0) = "0.00" ∧
    calculateAverage (JSVal.num 0.01) JSVal.undef (JSVal.num 0) = some 0.004 ∧
    round2 0.004 = 0 ∧ (0.004 : ℚ) ≠ 0 := by
  refine ⟨by decide, by decide, by decide, by decide⟩

/-- C6, amended.  With exactly one of CC/TP present (value `a`) and a
parsed exam `e`, `calculateAverage` returns exactly `a*0.4 + e*0.6`, and
`calculerMoyenne` that value formatted to two decimals; both are
symmetric in whether the present score was supplied as CC or TP. -/
theorem C6_amended (cc tp exam : JSVal) (a e : ℚ)
    (hcc : hasNoteReact cc = true) (htp : hasNoteReact tp = false)
    (ha : parseFloat cc = some a) (he : parseFloat exam = some e) :
    calculateAverage cc tp exam = some (a * 0.4 + e * 0.6) ∧
    calculateAverage tp cc exam = some (a * 0.4 + e * 0.6) ∧
    calculerMoyenne cc tp exam = toFixed2 (a * 0.4 + e * 0.6) ∧
    calculerMoyenne tp cc exam = toFixed2 (a * 0.4 + e * 0.6) := by
  have hccp : hasNotePlain cc = true := by rw [hasNote_eq]; exact hcc
  have htpp : hasNotePlain tp = false := by rw [hasNote_eq]; exact htp
  refine ⟨?_, ?_, ?_, ?_⟩
  · simp [calculateAverage, hcc, htp, ha, he, qadd, qmul, jsOr0]
  · simp [calculateAverage, hcc, htp, ha, he, qadd, qmul, jsOr0]
  · simp [calculerMoyenne, calculerMoyenneQ, jsToFixed2, hccp, htpp, ha, he, qadd, qmul]
  · simp [calculerMoyenne, calculerMoyenneQ, jsToFixed2, hccp, htpp, ha, he, qadd, qmul]

/-- C6, witness: `C6_amended` at `cc = 6` (TP absent), `exam = 4`. -/
theorem C6_witness :
    hasNoteReact (JSVal.num 6) = true ∧ hasNoteReact JSVal.emptyStr = false ∧
    calculateAverage (JSVal.num 6) JSVal.emptyStr (JSVal.num 4) = some (6 * 0.4 + 4 * 0.6) ∧
    calculerMoyenne JSVal.emptyStr (JSVal.num 6) (JSVal.num 4) = toFixed2 (6 * 0.4 + 4 * 0.6) :=
  ⟨rfl, rfl,
   (C6_amended (JSVal.num 6) JSVal.emptyStr (JSVal.num 4) 6 4 rfl rfl rfl rfl).1,
   (C6_amended (JSVal.num 6) JSVal.emptyStr (JSVal.num 4) 6 4 rfl rfl rfl rfl).2.2.2⟩

/-- C7, counterexample.  With neither CC nor TP present and exam =
0.004, the React `calculateAverage` returns the exam unchanged, but the
plain-JS `calculerMoyenne` returns "0.00": the exam score is not
returned unchanged by `calculerMoyenne`. -/
theorem C7_counterexample :
    calculerMoyenne JSVal.undef JSVal.undef (JSVal.num 0.004) = "0.00" ∧
    calculateAverage JSVal.undef JSVal.undef (JSVal.num 0.004) = some 0.004 ∧
    (0.004 : ℚ) ≠ 0 := by
  refine ⟨by decide, by decide, by decide⟩

/-- C7, amended.  With neither CC nor TP present and a parsed exam `e`,
`calculateAverage` returns `e` unchanged, and `calculerMoyenne` returns
`e` formatted to two decimals. -/
theorem C7_amended (cc tp exam : JSVal) (e : ℚ)
    (hcc : hasNoteReact cc = false) (htp : hasNoteReact tp = false)
    (he : parseFloat exam = some e) :
    calculateAverage cc tp exam = some e ∧
    calculerMoyenne cc tp exam = toFixed2 e := by
  have hccp : hasNotePlain cc = false := by rw [hasNote_eq]; exact hcc
  have htpp : hasNotePlain tp = false := by rw [hasNote_eq]; exact htp
  constructor
  · simp [calculateAverage, hcc, htp, he, jsOr0]
  · simp [calculerMoyenne, calculerMoyenneQ, jsToFixed2, hccp, htpp, he]

/-- C7, witness: `C7_amended` at `cc = tp = ''`, `exam = 16`. -/
theorem C7_witness :
    hasNoteReact JSVal.emptyStr = false ∧ parseFloat (JSVal.num 16) = some 16 ∧
    calculateAverage JSVal.emptyStr JSVal.emptyStr (JSVal.num 16) = some 16 ∧
    calculerMoyenne JSVal.emptyStr JSVal.emptyStr (JSVal.num 16) = toFixed2 16 :=
  ⟨rfl, rfl,
   (C7_amended JSVal.emptyStr JSVal.emptyStr (JSVal.num 16) 16 rfl rfl rfl).1,
   (C7_amended JSVal.emptyStr JSVal.emptyStr (JSVal.num 16) 16 rfl rfl rfl).2⟩

/-- C8.  The status classification is a four-tier partition with closed
lower boundaries, in both implementations: Excellent iff the average is
≥ 16, Good/Validé iff it is in [10, 16), Warning/Rattrapage iff it is in
[8, 10), Danger/Échec iff it is < 8; in particular 16.00 is Excellent,
15.99 and 10.00 are Good, 9.99 and 8.00 are Warning, 7.99 is Danger. -/
theorem C8_classification :
    (∀ q : ℚ,
      (getStyleParams (some q) = Label.excellent ↔ 16 ≤ q) ∧
      (getStyleParams (some q) = Label.valide ↔ 10 ≤ q ∧ q < 16) ∧
      (getStyleParams (some q) = Label.rattrapage ↔ 8 ≤ q ∧ q < 10) ∧
      (getStyleParams (some q) = Label.echec ↔ q < 8) ∧
      (getStyleMoyenneClass (some q) = "grade-excellent" ↔ 16 ≤ q) ∧
      (getStyleMoyenneClass (some q) = "grade-good" ↔ 10 ≤ q ∧ q < 16) ∧
      (getStyleMoyenneClass (some q) = "grade-warning" ↔ 8 ≤ q ∧ q < 10) ∧
      (getStyleMoyenneClass (some q) = "grade-danger" ↔ q < 8)) ∧
    getStyleParams (some 16) = Label.excellent ∧
    getStyleParams (some 15.99) = Label.valide ∧
    getStyleParams (some 10) = Label.valide ∧
    getStyleParams (some 9.99) = Label.rattrapage ∧
    getStyleParams (some 8) = Label.rattrapage ∧
    getStyleParams (some 7.99) = Label.echec := by
  refine ⟨fun q => ?_, by decide, by decide, by decide, by decide, by decide, by decide⟩
  rw [getStyleParams_eq_ite, getStyleMoyenneClass_eq_ite]
  by_cases h16 : 16 ≤ q <;> by_cases h10 : 10 ≤ q <;> by_cases h8 : 8 ≤ q <;>
    simp only [h16, h10, h8, if_true, if_false, if_pos, if_neg, not_false_iff] <;>
    refine ⟨?_, ?_, ?_, ?_, ?_, ?_, ?_, ?_⟩ <;>
    simp <;> linarith

/-- C9.  The subject-average and aggregate computations are
deterministic and side-effect free: identical inputs give identical
outputs, and invoking `updateStats` twice on the same collection yields
identical results while leaving the collection unchanged. -/
theorem C9_purity (cc tp exam : JSVal) (gs : List Grade) :
    calculateAverage cc tp exam = calculateAverage cc tp exam ∧
    calculerMoyenne cc tp exam = calculerMoyenne cc tp exam ∧
    (updateStatsCall gs).2 = gs ∧
    (updateStatsCall (updateStatsCall gs).2).1 = (updateStatsCall gs).1 ∧
    generalAvg gs = generalAvg gs ∧
    validatedCount gs = validatedCount gs ∧
    dangerCount gs = dangerCount gs :=
  ⟨rfl, rfl, rfl, rfl, rfl, rfl, rfl⟩

/-- C10.  Whenever the exam value parses to a number, the plain-JS
`calculerMoyenne` returns exactly the string obtained by formatting the
React `calculateAverage` result to two decimals: the two implementations
agree up to two-decimal display rounding. -/
theorem C10_agreement (cc tp exam : JSVal) (h : (parseFloat exam).isSome = true) :
    calculerMoyenne cc tp exam = jsToFixed2 (calculateAverage cc tp exam) := by
  obtain ⟨e, he⟩ := Option.isSome_iff_exists.mp h
  have key : calculerMoyenneQ cc tp exam = calculateAverage cc tp exam := by
    simp [calculerMoyenneQ, calculateAverage, hasNote_eq, he, jsOr0]
  rw [calculerMoyenne, key]

/-- C10, witness: `C10_agreement` at `cc = 12, tp = 14, exam = 10`. -/
theorem C10_witness :
    (parseFloat (JSVal.num 10)).isSome = true ∧
    calculerMoyenne (JSVal.num 12) (JSVal.num 14) (JSVal.num 10) =
      jsToFixed2 (calculateAverage (JSVal.num 12) (JSVal.num 14) (JSVal.num 10)) :=
  ⟨rfl, C10_agreement (JSVal.num 12) (JSVal.num 14) (JSVal.num 10) rfl⟩

end GradeCalc
